import Mathlib

/-!
# Shallow embedding of the async-task-manager backends

This file embeds the three execution backends of the repository
(`thread_pool_async_task_manager.py`, `gevent_async_task_manager.py`,
`async_task_manager.py`) and the shared completion handling of
`base_async_task_manager.py` as pure Lean functions, and proves properties
of the lifecycle, restart, counting and shutdown logic.

Modelling conventions:
* Python exceptions become explicit `Option PyError` / `Except PyError`
  results; a caught exception stays inside the modelled function.
* Concurrency primitives (gevent `Pool`, `ThreadPoolExecutor`, asyncio
  event loop) become handles carrying an identity number, so that "a fresh
  primitive was created" is the handle changing.  Whether a primitive
  operation succeeds is an explicit boolean oracle argument, standing for
  the primitive-level outcome the Python runtime would produce.
* `_active_tasks` is an `Int` (Python ints are unbounded and signed), so
  the clamped-at-zero invariant is a real statement.
* Log output (`print`) becomes an explicit `LogState` of stdout/stderr
  lines; timestamps, pids and exact message text are abbreviated since no
  claim depends on them.
-/

namespace AsyncTasks

/-- Python exceptions raised by the modelled code, identified by their
type and distinguishing message. -/
inductive PyError where
  /-- an exception escaping primitive construction
  (`Pool()` / `ThreadPoolExecutor(...)`) -/
  | startupFailure : PyError
  /-- `RuntimeError(msg)` raised explicitly by the source -/
  | runtimeError (msg : String) : PyError
  /-- `TypeError` from calling a function with an unexpected keyword -/
  | typeError (msg : String) : PyError
  /-- a primitive-level error escaping `submit` / `spawn` / `link` /
  `run_coroutine_threadsafe` -/
  | submitError : PyError
  /-- `AttributeError`, e.g. calling `.spawn` on `None` -/
  | attributeError (msg : String) : PyError
  deriving DecidableEq, Repr

/-- The observable log: lines printed to stdout and to stderr. -/
structure LogState where
  outLines : List String
  errLines : List String
  deriving DecidableEq, Repr

/-- `BaseAsyncTaskManager._print_async` (base_async_task_manager.py lines
16-23): try to print the formatted line to stdout; if printing fails
(`printOk = false`), the except branch writes a fallback line to stderr.
Either way no exception escapes, hence the `Option PyError` component is
always `none`. -/
def printAsync (printOk : Bool) (level message : String) (L : LogState) :
    LogState × Option PyError :=
  if printOk then
    ({ L with outLines := L.outLines ++ ["[" ++ level ++ "] " ++ message] }, none)
  else
    ({ L with errLines := L.errLines ++ ["Print error - Original message: " ++ message] },
     none)

/-- Outcome of a finished task body, as seen by the completion callback:
either the body returned a value, or it raised (the greenlet failed /
`future.result()` re-raises). -/
inductive TaskOutcome where
  | success : TaskOutcome
  | failure (message : String) : TaskOutcome
  deriving DecidableEq, Repr

/-- `BaseAsyncTaskManager._handle_task_completion` (base_async_task_manager.py
lines 67-82), also the bodies of
`ThreadPoolBasedAsyncTaskManager._handle_task_completion` and
`AsyncTaskManager._handle_task_completion`, which are identical in effect:
`future.result()` re-raises a failed task's exception, so on failure the
except branch runs; both branches decrement `_active_tasks` clamped at zero
and log.  Returns the new counter, the new log, and the exception escaping
the handler, if any.  Should the info-print itself raise (it cannot:
`printAsync` never errors), control would fall into the except branch,
which is modelled faithfully in the dead `some _` arm. -/
def handleTaskCompletion (printOk : Bool) (outcome : TaskOutcome)
    (token : String) (active : Int) (L : LogState) :
    Int × LogState × Option PyError :=
  match outcome with
  | .success =>
    let a1 := max 0 (active - 1)
    match printAsync printOk "info" ("Task completion handled for request UUID: " ++ token) L with
    | (L1, none) => (a1, L1, none)
    | (L1, some _) =>
      let a2 := max 0 (a1 - 1)
      let r := printAsync printOk "error" ("Task completion error for request UUID: " ++ token) L1
      (a2, r.1, r.2)
  | .failure m =>
    let a1 := max 0 (active - 1)
    let r := printAsync printOk "error"
      ("Task completion error for request UUID: " ++ token ++ ": " ++ m) L
    (a1, r.1, r.2)

/-- `GeventBasedAsyncTaskManager._handle_task_completion`
(gevent_async_task_manager.py lines 98-115): reads `greenlet.successful()`
and takes `greenlet.value` or `greenlet.exception` — neither read raises —
then decrements clamped at zero and logs; the except branch (reachable only
if the try-body raised) also decrements and logs.  Same observable effect
as the base handler. -/
def geventHandleTaskCompletion (printOk : Bool) (outcome : TaskOutcome)
    (token : String) (active : Int) (L : LogState) :
    Int × LogState × Option PyError :=
  let a1 := max 0 (active - 1)
  match outcome with
  | .success =>
    let r := printAsync printOk "info" ("Task completion handled for request UUID: " ++ token) L
    (a1, r.1, r.2)
  | .failure _ =>
    let r := printAsync printOk "info" ("Task completion handled for request UUID: " ++ token) L
    (a1, r.1, r.2)

/-! ## Fiber-pool (gevent) backend — gevent_async_task_manager.py -/

/-- A gevent `Pool` handle.  `id` distinguishes distinct pool objects
(so "a fresh primitive was created" is a changed id); `size` is the
argument passed to the `Pool` constructor — `Pool()` passes no size, i.e.
`none`, which gevent treats as an unbounded pool. -/
structure GPool where
  id : Nat
  size : Option Nat
  deriving DecidableEq, Repr

/-- Mutable state of `GeventBasedAsyncTaskManager`: `_running`,
`_active_tasks` (from the base class), `_max_workers`, `_pool`, `_pid`.
`nextId` is the modelling device allocating fresh pool identities. -/
structure GeventState where
  running : Bool
  activeTasks : Int
  maxWorkers : Nat
  pool : Option GPool
  pid : Option Nat
  nextId : Nat
  deriving DecidableEq, Repr

/-- The default of the `max_workers` parameter of
`GeventBasedAsyncTaskManager.__init__`. -/
def geventDefaultMaxWorkers : Nat := 4

/-- `GeventBasedAsyncTaskManager._start_gevent_pool`
(gevent_async_task_manager.py lines 24-51).  First the process-identity
check: if `_pid` is recorded and differs from the current pid, `_running`
is forced to `False` and `_pool` to `None`.  Then, if still running, the
call is a no-op; otherwise `Pool()` is constructed (note: with no size
argument), `_running` set, `_pid` recorded.  `poolOk` is the oracle for
whether the `Pool()` construction raises; on a raise the exception is
logged and re-raised, with no state change. -/
def startGeventPool (poolOk : Bool) (currentPid : Nat) (s : GeventState) :
    GeventState × Option PyError :=
  let s1 :=
    match s.pid with
    | some p =>
      if p ≠ currentPid then { s with running := false, pool := none } else s
    | none => s
  if s1.running then (s1, none)
  else if poolOk then
    ({ s1 with pool := some { id := s1.nextId, size := none },
               running := true,
               pid := some currentPid,
               nextId := s1.nextId + 1 }, none)
  else (s1, some .startupFailure)

/-- `GeventBasedAsyncTaskManager.__init__` (lines 14-19): fields
initialised (`_running = False`, `_active_tasks = 0` from the base class;
`_max_workers`, `_pool = None`, `_pid = None`), then `_start_gevent_pool`
runs in the constructing process. -/
def geventInit (poolOk : Bool) (currentPid maxWorkers : Nat) :
    GeventState × Option PyError :=
  startGeventPool poolOk currentPid
    { running := false, activeTasks := 0, maxWorkers := maxWorkers,
      pool := none, pid := none, nextId := 0 }

/-- `GeventBasedAsyncTaskManager.trigger_async_task` (lines 53-87).  No
readiness check of any kind: the body goes straight to
`self._pool.spawn(...)`.  If `_pool` is `None` that raises
`AttributeError`; otherwise `spawnOk` is the oracle for the
`spawn`/`link` calls.  On success `_active_tasks` is incremented and the
token returned; any exception is logged and re-raised with no state
change and no restart.  The second component of the result counts how
many times `_start_gevent_pool` ran during the call — always `0`, since
the source never calls it from `trigger_async_task`. -/
def geventTrigger (spawnOk : Bool) (s : GeventState) (token : String) :
    GeventState × Nat × Except PyError String :=
  match s.pool with
  | none => (s, 0, .error (.attributeError "NoneType object has no attribute spawn"))
  | some _ =>
    if spawnOk then
      ({ s with activeTasks := s.activeTasks + 1 }, 0, .ok token)
    else (s, 0, .error .submitError)

/-- `GeventBasedAsyncTaskManager.shutdown` (lines 123-136): guarded by
`if self._running and self._pool`; inside a try block `_running` is set
`False` and `self._pool.kill()` runs (`killOk` oracle); any exception from
the body is caught and logged, so none escapes.  `_pool` and
`_active_tasks` are left as they are. -/
def geventShutdown (killOk : Bool) (s : GeventState) :
    GeventState × Option PyError :=
  if s.running && s.pool.isSome then
    let s1 := { s with running := false }
    if killOk then (s1, none) else (s1, none)
  else (s, none)

/-! ## Thread-pool backend — thread_pool_async_task_manager.py -/

/-- A `ThreadPoolExecutor` handle: `id` distinguishes distinct executor
objects; `shutDown` records whether `executor.shutdown` has successfully
run on it. -/
structure TPExecutor where
  id : Nat
  shutDown : Bool
  deriving DecidableEq, Repr

/-- Mutable state of `ThreadPoolBasedAsyncTaskManager`: `_executor`,
`_running`, `_active_tasks`, `_max_workers`.  The class records no owner
process id.  `nextId` allocates fresh executor identities. -/
structure TPState where
  running : Bool
  activeTasks : Int
  maxWorkers : Nat
  executor : Option TPExecutor
  nextId : Nat
  deriving DecidableEq, Repr

/-- The keyword arguments the source passes at
thread_pool_async_task_manager.py line 175:
`self._executor.shutdown(wait=True, timeout=10)`. -/
def tpShutdownCallKwargs : List String := ["wait", "timeout"]

/-- The keyword parameters `concurrent.futures.ThreadPoolExecutor.shutdown`
accepts: `shutdown(self, wait=True, *, cancel_futures=False)`.  A call
passing any other keyword raises `TypeError` before doing anything. -/
def tpExecutorAcceptsKwarg (k : String) : Bool :=
  k == "wait" || k == "cancel_futures"

/-- Observable outcome of a `shutdown` call on the thread-pool backend:
whether the call blocked waiting for in-flight work to finish, which
exception (if any) the internal try block caught, and which exception (if
any) escaped to the caller. -/
structure TPShutdownReport where
  waitedForTasks : Bool
  caught : Option PyError
  raised : Option PyError
  deriving DecidableEq, Repr

/-- `ThreadPoolBasedAsyncTaskManager.shutdown` (lines 168-180): guarded by
`if self._running and self._executor`; inside the try block `_running` is
set `False`, then `self._executor.shutdown(wait=True, timeout=10)` is
called.  That call's keywords are checked against the real
`ThreadPoolExecutor.shutdown` signature: since `timeout` is not accepted,
the call raises `TypeError` immediately — so the executor is never shut
down and nothing waits for in-flight work — and the except branch catches
and logs it.  (The then-branch of the keyword check models what the call
would do were its keywords accepted: wait for tasks and mark the executor
shut down.) -/
def tpShutdown (s : TPState) : TPState × TPShutdownReport :=
  if s.running && s.executor.isSome then
    let s1 := { s with running := false }
    if tpShutdownCallKwargs.all tpExecutorAcceptsKwarg then
      ({ s1 with executor := s1.executor.map fun e => { e with shutDown := true } },
       { waitedForTasks := true, caught := none, raised := none })
    else
      (s1, { waitedForTasks := false,
             caught := some (.typeError "shutdown got an unexpected keyword argument timeout"),
             raised := none })
  else (s, { waitedForTasks := false, caught := none, raised := none })

/-- `ThreadPoolBasedAsyncTaskManager._start_thread_pool` (lines 26-47).
No process-identity check exists: the current pid appears only in log
strings, so the result is independent of `_currentPid`.  If `_running` the
call returns at once; otherwise `ThreadPoolExecutor(...)` is constructed
(`createOk` oracle), setting `_executor` and `_running`; a construction
failure is logged and re-raised with no state change. -/
def startThreadPool (createOk : Bool) (_currentPid : Nat) (s : TPState) :
    TPState × Option PyError :=
  if s.running then (s, none)
  else if createOk then
    ({ s with executor := some { id := s.nextId, shutDown := false },
              running := true,
              nextId := s.nextId + 1 }, none)
  else (s, some .startupFailure)

/-- `ThreadPoolBasedAsyncTaskManager.__init__` (lines 10-15): fields
initialised, then `_start_thread_pool` runs in the constructing process. -/
def tpInit (createOk : Bool) (currentPid maxWorkers : Nat) :
    TPState × Option PyError :=
  startThreadPool createOk currentPid
    { running := false, activeTasks := 0, maxWorkers := maxWorkers,
      executor := none, nextId := 0 }

/-- `ThreadPoolBasedAsyncTaskManager.trigger_async_task` (lines 49-95).
If `not self._running or not self._executor` the pool is (re)started; a
start failure raises out of the call; were the start to return with the
pool still not ready, `RuntimeError` would be raised (in the source this
branch is unreachable, since `_start_thread_pool` either raises or sets
`_running`).  Then the try block submits (`submitOk` oracle); on success
`_active_tasks` is incremented and the token returned; on a submit error
the except branch calls `_restart_thread_pool` — `self.shutdown()`, a
short sleep, `_start_thread_pool()` (oracle `restartCreateOk`) — and then
re-raises the original error; if the restart's start itself raises, that
exception propagates to the caller instead of the original one.  The `Nat`
component counts the `_start_thread_pool` calls made during this
invocation. -/
def tpTrigger (submitOk createOk restartCreateOk : Bool) (currentPid : Nat)
    (s : TPState) (token : String) : TPState × Nat × Except PyError String :=
  let submitPhase : TPState → Nat → TPState × Nat × Except PyError String :=
    fun s k =>
      if submitOk then
        ({ s with activeTasks := s.activeTasks + 1 }, k, .ok token)
      else
        let s2 := (tpShutdown s).1
        match startThreadPool restartCreateOk currentPid s2 with
        | (s3, some e2) => (s3, k + 1, .error e2)
        | (s3, none) => (s3, k + 1, .error .submitError)
  if !s.running || s.executor.isNone then
    match startThreadPool createOk currentPid s with
    | (s1, some e) => (s1, 1, .error e)
    | (s1, none) =>
      if !s1.running || s1.executor.isNone then
        (s1, 1, .error (.runtimeError "Thread pool failed to start"))
      else submitPhase s1 1
  else submitPhase s 0

/-! ## Event-loop backend — async_task_manager.py -/

/-- Mutable state of `AsyncTaskManager`: `_loop` (the asyncio event loop,
a handle distinguished by id), `_running`, `_active_tasks`.  The loop
thread object is omitted: it is consulted only for joining and logging.
The class records no owner process id.  `nextId` allocates fresh loop
identities. -/
structure ALState where
  running : Bool
  activeTasks : Int
  loopHandle : Option Nat
  nextId : Nat
  deriving DecidableEq, Repr

/-- `AsyncTaskManager._start_event_loop` (async_task_manager.py lines
36-82).  No process-identity check exists (`_currentPid` appears only in
log strings).  If `_running` the call returns at once.  Otherwise a
daemon thread is spawned to create a new event loop, set `_running = True`
and run it forever, and the caller sleeps 0.1s; `startOk` is the oracle
for whether the thread got the loop running within that wait.  Any
exception inside the thread is caught there, so `_start_event_loop`
itself never raises — on failure `_running` simply stays `False`. -/
def startEventLoop (startOk : Bool) (_currentPid : Nat) (s : ALState) : ALState :=
  if s.running then s
  else if startOk then
    { s with loopHandle := some s.nextId, running := true, nextId := s.nextId + 1 }
  else s

/-- `AsyncTaskManager.__init__` (lines 19-25): fields initialised
(`_loop = None`, `_running = False`, `_active_tasks = 0`), then
`_start_event_loop` runs. -/
def alInit (startOk : Bool) (currentPid : Nat) : ALState :=
  startEventLoop startOk currentPid
    { running := false, activeTasks := 0, loopHandle := none, nextId := 0 }

/-- `AsyncTaskManager.shutdown` (lines 201-213): guarded by
`if self._loop and self._running`; inside the try block
`call_soon_threadsafe(loop.stop)` runs first (`stopOk` oracle — it raises
e.g. when the loop is closed) and only then is `_running` set `False`; a
raise is caught and logged, leaving `_running` unchanged.  The loop handle
is never cleared. -/
def alShutdown (stopOk : Bool) (s : ALState) : ALState × Option PyError :=
  if s.loopHandle.isSome && s.running then
    if stopOk then ({ s with running := false }, none) else (s, none)
  else (s, none)

/-- `AsyncTaskManager.trigger_async_task` (lines 86-133).  If
`not self._running or not self._loop` the loop is started
(`startOk` oracle) and, should it still not be ready, `RuntimeError` is
raised — here a live branch, since a start failure does not raise.  Then
the try block submits `run_coroutine_threadsafe` (`submitOk` oracle); on
success `_active_tasks` is incremented and the token returned; on a submit
error the except branch calls `_restart_event_loop` — `self.shutdown()`
(with `stopOk`), a short sleep, `_start_event_loop()` (`restartStartOk`)
— then re-raises the original error (the restart path cannot raise on its
own).  The `Nat` component counts the `_start_event_loop` calls made
during this invocation. -/
def alTrigger (submitOk startOk restartStartOk stopOk : Bool) (currentPid : Nat)
    (s : ALState) (token : String) : ALState × Nat × Except PyError String :=
  let submitPhase : ALState → Nat → ALState × Nat × Except PyError String :=
    fun s k =>
      if submitOk then
        ({ s with activeTasks := s.activeTasks + 1 }, k, .ok token)
      else
        let s2 := (alShutdown stopOk s).1
        let s3 := startEventLoop restartStartOk currentPid s2
        (s3, k + 1, .error .submitError)
  if !s.running || s.loopHandle.isNone then
    let s1 := startEventLoop startOk currentPid s
    if !s1.running || s1.loopHandle.isNone then
      (s1, 1, .error (.runtimeError "Event loop failed to start"))
    else submitPhase s1 1
  else submitPhase s 0

/-! ## Operation sequences

Interleavings of trigger calls and completion callbacks, for the counting
claims.  Each operation carries the oracle bits for the primitive-level
outcomes of that particular call. -/

/-- One observable counter-affecting operation on the gevent backend. -/
inductive GOp where
  | trig (spawnOk : Bool) (token : String) : GOp
  | complete (printOk : Bool) (outcome : TaskOutcome) (token : String) : GOp
  deriving DecidableEq, Repr

/-- Apply one gevent operation to the backend state and the log. -/
def geventStep (op : GOp) (sL : GeventState × LogState) : GeventState × LogState :=
  match op with
  | .trig spawnOk token => ((geventTrigger spawnOk sL.1 token).1, sL.2)
  | .complete printOk outcome token =>
    let r := geventHandleTaskCompletion printOk outcome token sL.1.activeTasks sL.2
    ({ sL.1 with activeTasks := r.1 }, r.2.1)

/-- Run a sequence of gevent operations. -/
def geventRun (ops : List GOp) (sL : GeventState × LogState) :
    GeventState × LogState :=
  ops.foldl (fun sL op => geventStep op sL) sL

/-- One observable counter-affecting operation on the thread-pool backend. -/
inductive TPOp where
  | trig (submitOk createOk restartCreateOk : Bool) (pid : Nat) (token : String) : TPOp
  | complete (printOk : Bool) (outcome : TaskOutcome) (token : String) : TPOp
  deriving DecidableEq, Repr

/-- Apply one thread-pool operation to the backend state and the log. -/
def tpStep (op : TPOp) (sL : TPState × LogState) : TPState × LogState :=
  match op with
  | .trig submitOk createOk restartCreateOk pid token =>
    ((tpTrigger submitOk createOk restartCreateOk pid sL.1 token).1, sL.2)
  | .complete printOk outcome token =>
    let r := handleTaskCompletion printOk outcome token sL.1.activeTasks sL.2
    ({ sL.1 with activeTasks := r.1 }, r.2.1)

/-- Run a sequence of thread-pool operations. -/
def tpRun (ops : List TPOp) (sL : TPState × LogState) : TPState × LogState :=
  ops.foldl (fun sL op => tpStep op sL) sL

/-- One observable counter-affecting operation on the event-loop backend. -/
inductive ALOp where
  | trig (submitOk startOk restartStartOk stopOk : Bool) (pid : Nat) (token : String) : ALOp
  | complete (printOk : Bool) (outcome : TaskOutcome) (token : String) : ALOp
  deriving DecidableEq, Repr

/-- Apply one event-loop operation to the backend state and the log. -/
def alStep (op : ALOp) (sL : ALState × LogState) : ALState × LogState :=
  match op with
  | .trig submitOk startOk restartStartOk stopOk pid token =>
    ((alTrigger submitOk startOk restartStartOk stopOk pid sL.1 token).1, sL.2)
  | .complete printOk outcome token =>
    let r := handleTaskCompletion printOk outcome token sL.1.activeTasks sL.2
    ({ sL.1 with activeTasks := r.1 }, r.2.1)

/-- Run a sequence of event-loop operations. -/
def alRun (ops : List ALOp) (sL : ALState × LogState) : ALState × LogState :=
  ops.foldl (fun sL op => alStep op sL) sL

/-- The empty log. -/
def emptyLog : LogState := { outLines := [], errLines := [] }

/-! ## Helper lemmas -/

/-- `_print_async` never lets an exception escape. -/
theorem printAsync_none (printOk : Bool) (lvl msg : String) (L : LogState) :
    (printAsync printOk lvl msg L).2 = none := by
  cases printOk <;> simp [printAsync]

/-- `_print_async` emits exactly one line (to stdout, or to the stderr
fallback). -/
theorem printAsync_one_line (printOk : Bool) (lvl msg : String) (L : LogState) :
    (printAsync printOk lvl msg L).1.outLines.length
      + (printAsync printOk lvl msg L).1.errLines.length
      = L.outLines.length + L.errLines.length + 1 := by
  cases printOk <;> simp [printAsync] <;> omega

/-- The base completion handler always sets the counter to
`max 0 (active - 1)`, whatever the outcome and the print oracle. -/
theorem handleTaskCompletion_count (printOk : Bool) (o : TaskOutcome)
    (t : String) (a : Int) (L : LogState) :
    (handleTaskCompletion printOk o t a L).1 = max 0 (a - 1) := by
  cases printOk <;> cases o <;> simp [handleTaskCompletion, printAsync]

/-- The gevent completion handler always sets the counter to
`max 0 (active - 1)`. -/
theorem geventHandleTaskCompletion_count (printOk : Bool) (o : TaskOutcome)
    (t : String) (a : Int) (L : LogState) :
    (geventHandleTaskCompletion printOk o t a L).1 = max 0 (a - 1) := by
  cases o <;> simp [geventHandleTaskCompletion]

/-- The kwargs of the `executor.shutdown` call in the source are not all
accepted by `ThreadPoolExecutor.shutdown`. -/
theorem tpKwargsRejected : tpShutdownCallKwargs.all tpExecutorAcceptsKwarg = false := by
  decide

/-- A gevent trigger leaves the counter alone or increments it by one. -/
theorem geventTrigger_count (ok : Bool) (s : GeventState) (t : String) :
    (geventTrigger ok s t).1.activeTasks = s.activeTasks ∨
    (geventTrigger ok s t).1.activeTasks = s.activeTasks + 1 := by
  rcases hp : s.pool with _ | p <;> cases ok <;> simp [geventTrigger, hp]

/-- A thread-pool trigger leaves the counter alone or increments it by one. -/
theorem tpTrigger_count (so co ro : Bool) (pid : Nat) (s : TPState) (t : String) :
    (tpTrigger so co ro pid s t).1.activeTasks = s.activeTasks ∨
    (tpTrigger so co ro pid s t).1.activeTasks = s.activeTasks + 1 := by
  rcases s with ⟨r, a, w, ex, nid⟩
  cases r <;> rcases ex with _ | e <;> cases so <;> cases co <;> cases ro <;>
    simp [tpTrigger, startThreadPool, tpShutdown, tpKwargsRejected]

/-- An event-loop trigger leaves the counter alone or increments it by one. -/
theorem alTrigger_count (so co ro ko : Bool) (pid : Nat) (s : ALState) (t : String) :
    (alTrigger so co ro ko pid s t).1.activeTasks = s.activeTasks ∨
    (alTrigger so co ro ko pid s t).1.activeTasks = s.activeTasks + 1 := by
  rcases s with ⟨r, a, lo, nid⟩
  cases r <;> rcases lo with _ | l <;> cases so <;> cases co <;> cases ro <;> cases ko <;>
    simp [alTrigger, startEventLoop, alShutdown]

/-- Every gevent operation preserves nonnegativity of the counter. -/
theorem geventStep_nonneg (op : GOp) (sL : GeventState × LogState)
    (h : 0 ≤ sL.1.activeTasks) : 0 ≤ (geventStep op sL).1.activeTasks := by
  cases op with
  | trig ok tkn =>
    rcases geventTrigger_count ok sL.1 tkn with hc | hc <;>
      simp [geventStep, hc] <;> omega
  | complete pOk o tkn =>
    simp [geventStep, geventHandleTaskCompletion_count]

/-- Every thread-pool operation preserves nonnegativity of the counter. -/
theorem tpStep_nonneg (op : TPOp) (sL : TPState × LogState)
    (h : 0 ≤ sL.1.activeTasks) : 0 ≤ (tpStep op sL).1.activeTasks := by
  cases op with
  | trig so co ro pid tkn =>
    rcases tpTrigger_count so co ro pid sL.1 tkn with hc | hc <;>
      simp [tpStep, hc] <;> omega
  | complete pOk o tkn =>
    simp [tpStep, handleTaskCompletion_count]

/-- Every event-loop operation preserves nonnegativity of the counter. -/
theorem alStep_nonneg (op : ALOp) (sL : ALState × LogState)
    (h : 0 ≤ sL.1.activeTasks) : 0 ≤ (alStep op sL).1.activeTasks := by
  cases op with
  | trig so co ro ko pid tkn =>
    rcases alTrigger_count so co ro ko pid sL.1 tkn with hc | hc <;>
      simp [alStep, hc] <;> omega
  | complete pOk o tkn =>
    simp [alStep, handleTaskCompletion_count]

/-- Running any gevent operation sequence preserves nonnegativity. -/
theorem geventRun_nonneg (ops : List GOp) (sL : GeventState × LogState)
    (h : 0 ≤ sL.1.activeTasks) : 0 ≤ (geventRun ops sL).1.activeTasks := by
  induction ops generalizing sL with
  | nil => simpa [geventRun] using h
  | cons op ops ih =>
    rw [geventRun, List.foldl_cons]
    exact ih (geventStep op sL) (geventStep_nonneg op sL h)

/-- Running any thread-pool operation sequence preserves nonnegativity. -/
theorem tpRun_nonneg (ops : List TPOp) (sL : TPState × LogState)
    (h : 0 ≤ sL.1.activeTasks) : 0 ≤ (tpRun ops sL).1.activeTasks := by
  induction ops generalizing sL with
  | nil => simpa [tpRun] using h
  | cons op ops ih =>
    rw [tpRun, List.foldl_cons]
    exact ih (tpStep op sL) (tpStep_nonneg op sL h)

/-- Running any event-loop operation sequence preserves nonnegativity. -/
theorem alRun_nonneg (ops : List ALOp) (sL : ALState × LogState)
    (h : 0 ≤ sL.1.activeTasks) : 0 ≤ (alRun ops sL).1.activeTasks := by
  induction ops generalizing sL with
  | nil => simpa [alRun] using h
  | cons op ops ih =>
    rw [alRun, List.foldl_cons]
    exact ih (alStep op sL) (alStep_nonneg op sL h)

/-! ## N triggers followed by N completions -/

/-- `n` successful gevent triggers. -/
def geventTrigsN (n : Nat) : List GOp := List.replicate n (.trig true "t")

/-- `n` successful thread-pool triggers. -/
def tpTrigsN (n pid : Nat) : List TPOp := List.replicate n (.trig true true true pid "t")

/-- `n` successful event-loop triggers. -/
def alTrigsN (n pid : Nat) : List ALOp := List.replicate n (.trig true true true true pid "t")

/-- One gevent completion per listed task outcome. -/
def geventCompletes (outs : List TaskOutcome) : List GOp :=
  outs.map fun o => .complete true o "t"

/-- One thread-pool completion per listed task outcome. -/
def tpCompletes (outs : List TaskOutcome) : List TPOp :=
  outs.map fun o => .complete true o "t"

/-- One event-loop completion per listed task outcome. -/
def alCompletes (outs : List TaskOutcome) : List ALOp :=
  outs.map fun o => .complete true o "t"

/-- A successful gevent trigger on a state whose pool exists: counter up by
one, everything else untouched. -/
theorem geventTrigger_ready (s : GeventState) (t : String) (hp : s.pool.isSome) :
    geventTrigger true s t = ({ s with activeTasks := s.activeTasks + 1 }, 0, .ok t) := by
  obtain ⟨p, hp⟩ := Option.isSome_iff_exists.mp hp
  simp [geventTrigger, hp]

/-- A successful thread-pool trigger on a running state with an executor:
counter up by one, everything else untouched. -/
theorem tpTrigger_ready (co ro : Bool) (pid : Nat) (s : TPState) (t : String)
    (hr : s.running = true) (he : s.executor.isSome) :
    tpTrigger true co ro pid s t = ({ s with activeTasks := s.activeTasks + 1 }, 0, .ok t) := by
  obtain ⟨e, he⟩ := Option.isSome_iff_exists.mp he
  simp [tpTrigger, hr, he]

/-- A successful event-loop trigger on a running state with a loop: counter
up by one, everything else untouched. -/
theorem alTrigger_ready (co ro ko : Bool) (pid : Nat) (s : ALState) (t : String)
    (hr : s.running = true) (hl : s.loopHandle.isSome) :
    alTrigger true co ro ko pid s t = ({ s with activeTasks := s.activeTasks + 1 }, 0, .ok t) := by
  obtain ⟨l, hl⟩ := Option.isSome_iff_exists.mp hl
  simp [alTrigger, hr, hl]

/-- `n` successful gevent triggers add exactly `n` to the counter and leave
the rest of the state and the log untouched. -/
theorem geventRun_trigsN (n : Nat) (s : GeventState) (L : LogState) (hp : s.pool.isSome) :
    geventRun (geventTrigsN n) (s, L) = ({ s with activeTasks := s.activeTasks + n }, L) := by
  induction n generalizing s with
  | zero => simp [geventTrigsN, geventRun]
  | succ n ih =>
    rw [geventTrigsN, List.replicate_succ, geventRun, List.foldl_cons]
    have hstep : geventStep (.trig true "t") (s, L)
        = ({ s with activeTasks := s.activeTasks + 1 }, L) := by
      simp [geventStep, geventTrigger_ready s "t" hp]
    rw [hstep]
    show geventRun (geventTrigsN n) ({ s with activeTasks := s.activeTasks + 1 }, L) = _
    rw [ih { s with activeTasks := s.activeTasks + 1 } hp]
    simp only [Prod.mk.injEq, GeventState.mk.injEq, true_and, and_true]
    push_cast
    omega

/-- `n` successful thread-pool triggers add exactly `n` to the counter and
leave the rest of the state and the log untouched. -/
theorem tpRun_trigsN (n pid : Nat) (s : TPState) (L : LogState)
    (hr : s.running = true) (he : s.executor.isSome) :
    tpRun (tpTrigsN n pid) (s, L) = ({ s with activeTasks := s.activeTasks + n }, L) := by
  induction n generalizing s with
  | zero => simp [tpTrigsN, tpRun]
  | succ n ih =>
    rw [tpTrigsN, List.replicate_succ, tpRun, List.foldl_cons]
    have hstep : tpStep (.trig true true true pid "t") (s, L)
        = ({ s with activeTasks := s.activeTasks + 1 }, L) := by
      simp [tpStep, tpTrigger_ready true true pid s "t" hr he]
    rw [hstep]
    show tpRun (tpTrigsN n pid) ({ s with activeTasks := s.activeTasks + 1 }, L) = _
    rw [ih { s with activeTasks := s.activeTasks + 1 } hr he]
    simp only [Prod.mk.injEq, TPState.mk.injEq, true_and, and_true]
    push_cast
    omega

/-- `n` successful event-loop triggers add exactly `n` to the counter and
leave the rest of the state and the log untouched. -/
theorem alRun_trigsN (n pid : Nat) (s : ALState) (L : LogState)
    (hr : s.running = true) (hl : s.loopHandle.isSome) :
    alRun (alTrigsN n pid) (s, L) = ({ s with activeTasks := s.activeTasks + n }, L) := by
  induction n generalizing s with
  | zero => simp [alTrigsN, alRun]
  | succ n ih =>
    rw [alTrigsN, List.replicate_succ, alRun, List.foldl_cons]
    have hstep : alStep (.trig true true true true pid "t") (s, L)
        = ({ s with activeTasks := s.activeTasks + 1 }, L) := by
      simp [alStep, alTrigger_ready true true true pid s "t" hr hl]
    rw [hstep]
    show alRun (alTrigsN n pid) ({ s with activeTasks := s.activeTasks + 1 }, L) = _
    rw [ih { s with activeTasks := s.activeTasks + 1 } hr hl]
    simp only [Prod.mk.injEq, ALState.mk.injEq, true_and, and_true]
    push_cast
    omega

/-- Completions decrement one by one, clamped at zero: after one completion
per listed outcome the gevent counter is `max 0 (active - #outcomes)`. -/
theorem geventRun_completes (outs : List TaskOutcome) (s : GeventState) (L : LogState)
    (h : 0 ≤ s.activeTasks) :
    (geventRun (geventCompletes outs) (s, L)).1.activeTasks
      = max 0 (s.activeTasks - outs.length) := by
  induction outs generalizing s L with
  | nil => simp [geventCompletes, geventRun]; omega
  | cons o outs ih =>
    rw [geventCompletes, List.map_cons, geventRun, List.foldl_cons]
    have hstep : geventStep (.complete true o "t") (s, L)
        = ({ s with activeTasks := max 0 (s.activeTasks - 1) },
           (geventHandleTaskCompletion true o "t" s.activeTasks L).2.1) := by
      simp [geventStep, geventHandleTaskCompletion_count]
    rw [hstep]
    show (geventRun (geventCompletes outs)
        ({ s with activeTasks := max 0 (s.activeTasks - 1) },
         (geventHandleTaskCompletion true o "t" s.activeTasks L).2.1)).1.activeTasks = _
    rw [ih _ _ (le_max_left 0 _)]
    show (max 0 (max 0 (s.activeTasks - 1) - (outs.length : Int)))
        = max 0 (s.activeTasks - ((o :: outs).length : Int))
    push_cast [List.length_cons]
    omega

/-- After one thread-pool completion per listed outcome the counter is
`max 0 (active - #outcomes)`. -/
theorem tpRun_completes (outs : List TaskOutcome) (s : TPState) (L : LogState)
    (h : 0 ≤ s.activeTasks) :
    (tpRun (tpCompletes outs) (s, L)).1.activeTasks
      = max 0 (s.activeTasks - outs.length) := by
  induction outs generalizing s L with
  | nil => simp [tpCompletes, tpRun]; omega
  | cons o outs ih =>
    rw [tpCompletes, List.map_cons, tpRun, List.foldl_cons]
    have hstep : tpStep (.complete true o "t") (s, L)
        = ({ s with activeTasks := max 0 (s.activeTasks - 1) },
           (handleTaskCompletion true o "t" s.activeTasks L).2.1) := by
      simp [tpStep, handleTaskCompletion_count]
    rw [hstep]
    show (tpRun (tpCompletes outs)
        ({ s with activeTasks := max 0 (s.activeTasks - 1) },
         (handleTaskCompletion true o "t" s.activeTasks L).2.1)).1.activeTasks = _
    rw [ih _ _ (le_max_left 0 _)]
    show (max 0 (max 0 (s.activeTasks - 1) - (outs.length : Int)))
        = max 0 (s.activeTasks - ((o :: outs).length : Int))
    push_cast [List.length_cons]
    omega

/-- After one event-loop completion per listed outcome the counter is
`max 0 (active - #outcomes)`. -/
theorem alRun_completes (outs : List TaskOutcome) (s : ALState) (L : LogState)
    (h : 0 ≤ s.activeTasks) :
    (alRun (alCompletes outs) (s, L)).1.activeTasks
      = max 0 (s.activeTasks - outs.length) := by
  induction outs generalizing s L with
  | nil => simp [alCompletes, alRun]; omega
  | cons o outs ih =>
    rw [alCompletes, List.map_cons, alRun, List.foldl_cons]
    have hstep : alStep (.complete true o "t") (s, L)
        = ({ s with activeTasks := max 0 (s.activeTasks - 1) },
           (handleTaskCompletion true o "t" s.activeTasks L).2.1) := by
      simp [alStep, handleTaskCompletion_count]
    rw [hstep]
    show (alRun (alCompletes outs)
        ({ s with activeTasks := max 0 (s.activeTasks - 1) },
         (handleTaskCompletion true o "t" s.activeTasks L).2.1)).1.activeTasks = _
    rw [ih _ _ (le_max_left 0 _)]
    show (max 0 (max 0 (s.activeTasks - 1) - (outs.length : Int)))
        = max 0 (s.activeTasks - ((o :: outs).length : Int))
    push_cast [List.length_cons]
    omega

/-! ## Claim theorems -/

/-- C3: for every backend variant and every sequence of trigger and
completion operations from a freshly constructed backend, the active-task
counter is never negative — each completion decrement is clamped at zero,
so `activeCount ≥ 0` holds after every operation (every prefix of a
sequence is itself a sequence). -/
theorem impl_C3 :
    (∀ (ops : List GOp) (poolOk : Bool) (pid w : Nat),
      0 ≤ (geventRun ops ((geventInit poolOk pid w).1, emptyLog)).1.activeTasks) ∧
    (∀ (ops : List TPOp) (createOk : Bool) (pid w : Nat),
      0 ≤ (tpRun ops ((tpInit createOk pid w).1, emptyLog)).1.activeTasks) ∧
    (∀ (ops : List ALOp) (startOk : Bool) (pid : Nat),
      0 ≤ (alRun ops (alInit startOk pid, emptyLog)).1.activeTasks) := by
  refine ⟨fun ops poolOk pid w => ?_, fun ops createOk pid w => ?_,
    fun ops startOk pid => ?_⟩
  · exact geventRun_nonneg ops _ (by cases poolOk <;> simp [geventInit, startGeventPool])
  · exact tpRun_nonneg ops _ (by cases createOk <;> simp [tpInit, startThreadPool])
  · exact alRun_nonneg ops _ (by cases startOk <;> simp [alInit, startEventLoop])

/-- C4: for every `N ≥ 0` and every backend variant, after `N` successful
triggers on a freshly constructed backend and before any completion the
counter equals `N`; after all `N` tasks complete — each succeeding or
failing — it returns to `0`. -/
theorem impl_C4 (n pid w : Nat) (outsG outsT outsA : List TaskOutcome)
    (hG : outsG.length = n) (hT : outsT.length = n) (hA : outsA.length = n) :
    ((geventRun (geventTrigsN n) ((geventInit true pid w).1, emptyLog)).1.activeTasks = n ∧
      (geventRun (geventCompletes outsG)
        (geventRun (geventTrigsN n) ((geventInit true pid w).1, emptyLog))).1.activeTasks = 0) ∧
    ((tpRun (tpTrigsN n pid) ((tpInit true pid w).1, emptyLog)).1.activeTasks = n ∧
      (tpRun (tpCompletes outsT)
        (tpRun (tpTrigsN n pid) ((tpInit true pid w).1, emptyLog))).1.activeTasks = 0) ∧
    ((alRun (alTrigsN n pid) (alInit true pid, emptyLog)).1.activeTasks = n ∧
      (alRun (alCompletes outsA)
        (alRun (alTrigsN n pid) (alInit true pid, emptyLog))).1.activeTasks = 0) := by
  have hgp : (geventInit true pid w).1.pool.isSome = true := by
    simp [geventInit, startGeventPool]
  have hga : (geventInit true pid w).1.activeTasks = 0 := by
    simp [geventInit, startGeventPool]
  have htr : (tpInit true pid w).1.running = true := by
    simp [tpInit, startThreadPool]
  have hte : (tpInit true pid w).1.executor.isSome = true := by
    simp [tpInit, startThreadPool]
  have hta : (tpInit true pid w).1.activeTasks = 0 := by
    simp [tpInit, startThreadPool]
  have har : (alInit true pid).running = true := by
    simp [alInit, startEventLoop]
  have hal : (alInit true pid).loopHandle.isSome = true := by
    simp [alInit, startEventLoop]
  have haa : (alInit true pid).activeTasks = 0 := by
    simp [alInit, startEventLoop]
  refine ⟨⟨?_, ?_⟩, ⟨?_, ?_⟩, ⟨?_, ?_⟩⟩
  · rw [geventRun_trigsN n _ emptyLog hgp]
    show (geventInit true pid w).1.activeTasks + (n : Int) = (n : Int)
    rw [hga]; ring
  · rw [geventRun_trigsN n _ emptyLog hgp]
    rw [geventRun_completes outsG _ _
      (by show (0:Int) ≤ (geventInit true pid w).1.activeTasks + (n : Int); rw [hga]; positivity)]
    show max 0 ((geventInit true pid w).1.activeTasks + (n : Int) - (outsG.length : Int)) = 0
    rw [hga, hG]; omega
  · rw [tpRun_trigsN n pid _ emptyLog htr hte]
    show (tpInit true pid w).1.activeTasks + (n : Int) = (n : Int)
    rw [hta]; ring
  · rw [tpRun_trigsN n pid _ emptyLog htr hte]
    rw [tpRun_completes outsT _ _
      (by show (0:Int) ≤ (tpInit true pid w).1.activeTasks + (n : Int); rw [hta]; positivity)]
    show max 0 ((tpInit true pid w).1.activeTasks + (n : Int) - (outsT.length : Int)) = 0
    rw [hta, hT]; omega
  · rw [alRun_trigsN n pid _ emptyLog har hal]
    show (alInit true pid).activeTasks + (n : Int) = (n : Int)
    rw [haa]; ring
  · rw [alRun_trigsN n pid _ emptyLog har hal]
    rw [alRun_completes outsA _ _
      (by show (0:Int) ≤ (alInit true pid).activeTasks + (n : Int); rw [haa]; positivity)]
    show max 0 ((alInit true pid).activeTasks + (n : Int) - (outsA.length : Int)) = 0
    rw [haa, hA]; omega

/-- Witness for C4: two triggers on a fresh gevent backend leave the
counter at 2; two completions (one success, one task failure) bring it
back to 0. -/
theorem impl_C4_witness :
    (geventRun (geventTrigsN 2) ((geventInit true 7 4).1, emptyLog)).1.activeTasks = 2 ∧
    (geventRun (geventCompletes [TaskOutcome.success, TaskOutcome.failure "boom"])
      (geventRun (geventTrigsN 2) ((geventInit true 7 4).1, emptyLog))).1.activeTasks = 0 :=
  (impl_C4 2 7 4 [TaskOutcome.success, TaskOutcome.failure "boom"]
    [TaskOutcome.success, TaskOutcome.failure "boom"]
    [TaskOutcome.success, TaskOutcome.failure "boom"] rfl rfl rfl).1

/-- C6: for every backend variant and every starting state, calling
`shutdown` twice in a row leaves the state after the second call identical
to the state after the first (the second call is a no-op), and neither
call lets an exception escape.  The primitive-level oracle (gevent
`pool.kill`, asyncio `call_soon_threadsafe`) is the same for both calls,
since it reflects the unchanged primitive's condition. -/
theorem impl_C6 :
    (∀ (killOk : Bool) (s : GeventState),
      (geventShutdown killOk (geventShutdown killOk s).1).1 = (geventShutdown killOk s).1 ∧
      (geventShutdown killOk s).2 = none ∧
      (geventShutdown killOk (geventShutdown killOk s).1).2 = none) ∧
    (∀ s : TPState,
      (tpShutdown (tpShutdown s).1).1 = (tpShutdown s).1 ∧
      (tpShutdown s).2.raised = none ∧
      (tpShutdown (tpShutdown s).1).2.raised = none) ∧
    (∀ (stopOk : Bool) (s : ALState),
      (alShutdown stopOk (alShutdown stopOk s).1).1 = (alShutdown stopOk s).1 ∧
      (alShutdown stopOk s).2 = none ∧
      (alShutdown stopOk (alShutdown stopOk s).1).2 = none) := by
  refine ⟨fun killOk s => ?_, fun s => ?_, fun stopOk s => ?_⟩
  · rcases s with ⟨r, a, w, po, q, nid⟩
    cases r <;> rcases po with _ | p <;> cases killOk <;>
      simp [geventShutdown]
  · rcases s with ⟨r, a, w, ex, nid⟩
    cases r <;> rcases ex with _ | e <;>
      simp [tpShutdown, tpKwargsRejected]
  · rcases s with ⟨r, a, lo, nid⟩
    cases r <;> rcases lo with _ | l <;> cases stopOk <;>
      simp [alShutdown]

/-- C8: a task-body failure is consumed by the completion handler: the
handler never lets any exception escape (first conjunct, all outcomes),
and on a failure outcome it emits exactly one log line — to stdout, or,
when printing itself fails, to the stderr fallback (second conjunct);
`_print_async` itself never raises and on a print failure routes one line
to the fallback stream (third and fourth conjuncts). -/
theorem impl_C8 :
    (∀ (printOk : Bool) (o : TaskOutcome) (tkn : String) (a : Int) (L : LogState),
      (handleTaskCompletion printOk o tkn a L).2.2 = none) ∧
    (∀ (printOk : Bool) (m tkn : String) (a : Int) (L : LogState),
      (handleTaskCompletion printOk (.failure m) tkn a L).2.1.outLines.length
        + (handleTaskCompletion printOk (.failure m) tkn a L).2.1.errLines.length
        = L.outLines.length + L.errLines.length + 1) ∧
    (∀ (printOk : Bool) (lvl msg : String) (L : LogState),
      (printAsync printOk lvl msg L).2 = none) ∧
    (∀ (lvl msg : String) (L : LogState),
      (printAsync false lvl msg L).1.errLines.length = L.errLines.length + 1) := by
  refine ⟨fun printOk o tkn a L => ?_, fun printOk m tkn a L => ?_,
    fun printOk lvl msg L => printAsync_none printOk lvl msg L,
    fun lvl msg L => ?_⟩
  · cases printOk <;> cases o <;> simp [handleTaskCompletion, printAsync]
  · cases printOk <;> simp [handleTaskCompletion, printAsync] <;> omega
  · simp [printAsync]

/-- C9: for every backend variant, whenever a trigger call returns
successfully — in any state and under any oracle outcomes — the returned
string is exactly the token that was passed in. -/
theorem impl_C9 :
    (∀ (ok : Bool) (s : GeventState) (tkn out : String),
      (geventTrigger ok s tkn).2.2 = .ok out → out = tkn) ∧
    (∀ (so co ro : Bool) (pid : Nat) (s : TPState) (tkn out : String),
      (tpTrigger so co ro pid s tkn).2.2 = .ok out → out = tkn) ∧
    (∀ (so co ro ko : Bool) (pid : Nat) (s : ALState) (tkn out : String),
      (alTrigger so co ro ko pid s tkn).2.2 = .ok out → out = tkn) := by
  refine ⟨fun ok s tkn out h => ?_, fun so co ro pid s tkn out h => ?_,
    fun so co ro ko pid s tkn out h => ?_⟩
  · rcases hp : s.pool with _ | p <;> cases ok <;>
      simp [geventTrigger, hp] at h <;> exact h.symm
  · rcases s with ⟨r, a, w, ex, nid⟩
    cases r <;> rcases ex with _ | e <;> cases so <;> cases co <;> cases ro <;>
      simp [tpTrigger, startThreadPool, tpShutdown, tpKwargsRejected] at h <;>
      exact h.symm
  · rcases s with ⟨r, a, lo, nid⟩
    cases r <;> rcases lo with _ | l <;> cases so <;> cases co <;> cases ro <;> cases ko <;>
      simp [alTrigger, startEventLoop, alShutdown] at h <;>
      exact h.symm

/-- Witness for C9: each variant's trigger, on a ready state, returns the
very token passed in. -/
theorem impl_C9_witness :
    ("abc-1" = "abc-1") ∧ ("abc-2" = "abc-2") ∧ ("abc-3" = "abc-3") :=
  ⟨impl_C9.1 true
      { running := true, activeTasks := 0, maxWorkers := 4,
        pool := some { id := 0, size := none }, pid := some 7, nextId := 1 }
      "abc-1" "abc-1" (by rfl),
   impl_C9.2.1 true true true 7
      { running := true, activeTasks := 0, maxWorkers := 4,
        executor := some { id := 0, shutDown := false }, nextId := 1 }
      "abc-2" "abc-2" (by rfl),
   impl_C9.2.2 true true true true 7
      { running := true, activeTasks := 0, loopHandle := some 0, nextId := 1 }
      "abc-3" "abc-3" (by rfl)⟩

/-- C10: the gevent trigger consults neither the running flag nor the
owner pid.  First conjunct: `shutdown` leaves the pool handle in place, so
the post-shutdown state still holds the primitive.  Second conjunct: for
every state holding a pool — the running flag and the recorded pid fully
universally quantified, so in particular the state right after `shutdown`
set `running := false` — a trigger spawns on that very pool handle,
increments the counter, returns the token, performs zero start attempts,
and changes nothing else. -/
theorem impl_C10 :
    (∀ (killOk : Bool) (s : GeventState), (geventShutdown killOk s).1.pool = s.pool) ∧
    (∀ (r : Bool) (a : Int) (w : Nat) (p : GPool) (q : Option Nat) (nid : Nat) (tkn : String),
      geventTrigger true
          { running := r, activeTasks := a, maxWorkers := w,
            pool := some p, pid := q, nextId := nid } tkn
        = ({ running := r, activeTasks := a + 1, maxWorkers := w,
             pool := some p, pid := q, nextId := nid }, 0, .ok tkn)) := by
  refine ⟨fun killOk s => ?_, fun r a w p q nid tkn => ?_⟩
  · rcases s with ⟨r, a, w, po, q, nid⟩
    cases r <;> rcases po with _ | p <;> cases killOk <;> simp [geventShutdown]
  · simp [geventTrigger]

/-- Counterexample to C1: on the gevent backend in the Running state, a
primitive-level submit error does not transition the backend to Stopped
(the running flag stays `true`), makes zero restart attempts (the source's
`trigger_async_task` never calls `_start_gevent_pool`, and
`_restart_gevent_pool` is dead code), and surfaces the raw original error —
contradicting "for every backend variant … transitions to Stopped and
exactly one restart attempt is made". -/
theorem impl_C1_cex :
    geventTrigger false
        { running := true, activeTasks := 0, maxWorkers := 4,
          pool := some { id := 0, size := none }, pid := some 7, nextId := 1 } "abc-2"
      = ({ running := true, activeTasks := 0, maxWorkers := 4,
           pool := some { id := 0, size := none }, pid := some 7, nextId := 1 },
         0, .error .submitError) := by rfl

/-- C1 (amended): on a primitive-level submit error from `Running`, the
thread-pool and event-loop backends transition to Stopped and make exactly
one restart attempt; the event-loop backend then re-raises the original
error and, if the restart failed, remains Stopped (conjuncts 4 and 5); the
thread-pool backend re-raises the original error when the restart
succeeded, but when the restart's start itself fails it surfaces that
startup error instead of the original, remaining Stopped (conjuncts 2 and
3); the gevent backend makes no restart attempt at all, leaves its running
flag unchanged, and re-raises the original error (conjunct 1).  No variant
wraps the error in a dedicated `SchedulingError` type. -/
theorem impl_C1 :
    (∀ (s : GeventState) (p : GPool) (tkn : String), s.pool = some p →
      geventTrigger false s tkn = (s, 0, .error .submitError)) ∧
    (∀ (co : Bool) (pid : Nat) (s : TPState) (tkn : String),
      s.running = true → s.executor.isSome = true →
      tpTrigger false co false pid s tkn
        = ({ s with running := false }, 1, .error .startupFailure)) ∧
    (∀ (co : Bool) (pid : Nat) (s : TPState) (tkn : String),
      s.running = true → s.executor.isSome = true →
      tpTrigger false co true pid s tkn
        = ({ s with executor := some { id := s.nextId, shutDown := false },
                    nextId := s.nextId + 1 }, 1, .error .submitError)) ∧
    (∀ (co : Bool) (pid : Nat) (s : ALState) (tkn : String),
      s.running = true → s.loopHandle.isSome = true →
      alTrigger false co false true pid s tkn
        = ({ s with running := false }, 1, .error .submitError)) ∧
    (∀ (co : Bool) (pid : Nat) (s : ALState) (tkn : String),
      s.running = true → s.loopHandle.isSome = true →
      alTrigger false co true true pid s tkn
        = ({ s with loopHandle := some s.nextId, nextId := s.nextId + 1 },
           1, .error .submitError)) := by
  refine ⟨fun s p tkn hp => ?_, fun co pid s tkn hr he => ?_,
    fun co pid s tkn hr he => ?_, fun co pid s tkn hr hl => ?_,
    fun co pid s tkn hr hl => ?_⟩
  · simp [geventTrigger, hp]
  · obtain ⟨e, he⟩ := Option.isSome_iff_exists.mp he
    simp [tpTrigger, hr, he, tpShutdown, tpKwargsRejected, startThreadPool]
  · obtain ⟨e, he⟩ := Option.isSome_iff_exists.mp he
    simp [tpTrigger, hr, he, tpShutdown, tpKwargsRejected, startThreadPool]
  · obtain ⟨l, hl⟩ := Option.isSome_iff_exists.mp hl
    simp [alTrigger, hr, hl, alShutdown, startEventLoop]
  · obtain ⟨l, hl⟩ := Option.isSome_iff_exists.mp hl
    simp [alTrigger, hr, hl, alShutdown, startEventLoop]

/-- Witness for amended C1: a concrete submit failure on each variant; the
thread-pool restart attempt fails, so the startup error (not the original)
surfaces while the backend stays Stopped; the event-loop restart also
fails, surfacing the original error with the backend Stopped; the gevent
backend just re-raises, still Running. -/
theorem impl_C1_witness :
    geventTrigger false
        { running := true, activeTasks := 2, maxWorkers := 4,
          pool := some { id := 0, size := none }, pid := some 9, nextId := 1 } "u1"
      = ({ running := true, activeTasks := 2, maxWorkers := 4,
           pool := some { id := 0, size := none }, pid := some 9, nextId := 1 },
         0, .error .submitError) ∧
    tpTrigger false true false 9
        { running := true, activeTasks := 2, maxWorkers := 4,
          executor := some { id := 0, shutDown := false }, nextId := 1 } "u2"
      = ({ running := false, activeTasks := 2, maxWorkers := 4,
           executor := some { id := 0, shutDown := false }, nextId := 1 },
         1, .error .startupFailure) ∧
    alTrigger false true false true 9
        { running := true, activeTasks := 2, loopHandle := some 0, nextId := 1 } "u3"
      = ({ running := false, activeTasks := 2, loopHandle := some 0, nextId := 1 },
         1, .error .submitError) :=
  ⟨impl_C1.1 _ { id := 0, size := none } "u1" rfl,
   impl_C1.2.1 true 9 _ "u2" rfl rfl,
   impl_C1.2.2.2.1 true 9 _ "u3" rfl rfl⟩

/-- Counterexample to C2: the thread-pool backend records no owner process
id and its start routine consults none.  Here the state carries an executor
handle (id 0) inherited from the process that created it; a start attempt,
whether the current process id is 200 or 100, returns the state unchanged
— no fresh primitive — because only the running flag is consulted.  This
contradicts "for every backend variant, at the top of every start attempt
… a fresh concurrency primitive is created" when the owner differs. -/
theorem impl_C2_cex :
    (startThreadPool true 200
        { running := true, activeTasks := 0, maxWorkers := 4,
          executor := some { id := 0, shutDown := false }, nextId := 1 }
      = ({ running := true, activeTasks := 0, maxWorkers := 4,
           executor := some { id := 0, shutDown := false }, nextId := 1 }, none)) ∧
    (startThreadPool true 100
        { running := true, activeTasks := 0, maxWorkers := 4,
          executor := some { id := 0, shutDown := false }, nextId := 1 }
      = ({ running := true, activeTasks := 0, maxWorkers := 4,
           executor := some { id := 0, shutDown := false }, nextId := 1 }, none)) := by
  decide

/-- C2 (amended): only the fiber-pool (gevent) backend performs the
process-identity check.  Conjunct 1: at the top of `_start_gevent_pool`, a
recorded owner pid differing from the current pid forces the backend to be
treated as dead regardless of the running flag, and a fresh pool is
created (or the startup failure is surfaced with the backend left
stopped).  Conjunct 2: the pool so created is never the old handle.
Conjuncts 3-6: the thread-pool and event-loop start routines consult no
process identity — their results are identical under any two current pids
— and when the (possibly inherited) running flag is true they return at
once, reusing the existing primitive handle. -/
theorem impl_C2 :
    (∀ (poolOk : Bool) (cur : Nat) (s : GeventState) (p : Nat),
      s.pid = some p → p ≠ cur →
      startGeventPool poolOk cur s
        = if poolOk then
            ({ s with pool := some { id := s.nextId, size := none }, running := true,
                      pid := some cur, nextId := s.nextId + 1 }, none)
          else ({ s with running := false, pool := none }, some .startupFailure)) ∧
    (∀ (poolOk : Bool) (cur : Nat) (s : GeventState) (p : Nat) (old : GPool),
      s.pid = some p → p ≠ cur → s.pool = some old → old.id < s.nextId →
      (startGeventPool poolOk cur s).1.pool ≠ some old) ∧
    (∀ (co : Bool) (p₁ p₂ : Nat) (s : TPState),
      startThreadPool co p₁ s = startThreadPool co p₂ s) ∧
    (∀ (co : Bool) (p : Nat) (s : TPState),
      s.running = true → startThreadPool co p s = (s, none)) ∧
    (∀ (so : Bool) (p₁ p₂ : Nat) (s : ALState),
      startEventLoop so p₁ s = startEventLoop so p₂ s) ∧
    (∀ (so : Bool) (p : Nat) (s : ALState),
      s.running = true → startEventLoop so p s = s) := by
  refine ⟨fun poolOk cur s p hp hne => ?_, fun poolOk cur s p old hp hne hpool hlt => ?_,
    fun co p₁ p₂ s => rfl, fun co p s hr => ?_, fun so p₁ p₂ s => rfl,
    fun so p s hr => ?_⟩
  · cases poolOk <;> simp [startGeventPool, hp, hne]
  · cases poolOk <;> simp [startGeventPool, hp, hne]
    intro hc
    rw [← hc] at hlt
    simp at hlt
  · simp [startThreadPool, hr]
  · simp [startEventLoop, hr]

/-- Witness for amended C2: a gevent backend created in process 100, seen
from forked process 200, discards the inherited pool and creates a fresh
one with a new identity; the thread-pool start on a running state at a
foreign pid just returns the state. -/
theorem impl_C2_witness :
    (startGeventPool true 200
        { running := true, activeTasks := 0, maxWorkers := 4,
          pool := some { id := 0, size := none }, pid := some 100, nextId := 1 }
      = ({ running := true, activeTasks := 0, maxWorkers := 4,
           pool := some { id := 1, size := none }, pid := some 200, nextId := 2 }, none)) ∧
    ((startGeventPool true 200
        { running := true, activeTasks := 0, maxWorkers := 4,
          pool := some { id := 0, size := none }, pid := some 100, nextId := 1 }).1.pool
      ≠ some { id := 0, size := none }) ∧
    (startThreadPool true 200
        { running := true, activeTasks := 0, maxWorkers := 4,
          executor := some { id := 0, shutDown := false }, nextId := 1 }
      = ({ running := true, activeTasks := 0, maxWorkers := 4,
           executor := some { id := 0, shutDown := false }, nextId := 1 }, none)) :=
  ⟨impl_C2.1 true 200 _ 100 rfl (by decide),
   impl_C2.2.1 true 200 _ 100 { id := 0, size := none } rfl (by decide) rfl (by decide),
   impl_C2.2.2.2.1 true 200 _ rfl⟩

/-- C5: the intended bounded drain never happens.  The source's
`self._executor.shutdown(wait=True, timeout=10)` passes the keyword
`timeout`, which `ThreadPoolExecutor.shutdown` does not accept (conjunct
1), so on a running backend with one in-flight task the call raises
`TypeError` immediately; the except branch swallows it.  Net effect
(conjunct 2): `running` is set `false` (new submissions are indeed
stopped) and `shutdown` returns without throwing, but nothing ever waits
for in-flight work and the executor is never actually shut down — the
10-second bounded drain the claim (and the code's own intent) describes is
unreachable. -/
theorem impl_C5 :
    tpShutdownCallKwargs.all tpExecutorAcceptsKwarg = false ∧
    tpShutdown
        { running := true, activeTasks := 1, maxWorkers := 4,
          executor := some { id := 0, shutDown := false }, nextId := 1 }
      = ({ running := false, activeTasks := 1, maxWorkers := 4,
           executor := some { id := 0, shutDown := false }, nextId := 1 },
         { waitedForTasks := false,
           caught := some (.typeError "shutdown got an unexpected keyword argument timeout"),
           raised := none }) := by decide

/-- C7: the worker-count configuration defaults to 4 (conjunct 1) and the
log line announces a pool of `_max_workers` workers, but the pool actually
created at start is `Pool()` with no size argument — an unbounded pool
(size `none`), not one of size equal to the configured worker count
(conjuncts 2 and 3). -/
theorem impl_C7 :
    geventDefaultMaxWorkers = 4 ∧
    geventInit true 7 geventDefaultMaxWorkers
      = ({ running := true, activeTasks := 0, maxWorkers := 4,
           pool := some { id := 0, size := none }, pid := some 7, nextId := 1 }, none) ∧
    ((some { id := 0, size := none } : Option GPool)
        ≠ some { id := 0, size := some geventDefaultMaxWorkers }) := by decide

end AsyncTasks
